import Mathlib

/-!
Verification of the log-collector service (src/log-collector/app.py).

The service is a Flask app with one ingest endpoint, `collect`, that
normalizes a JSON log event, inserts it into a Postgres `logs` table with
`ON CONFLICT (event_id) DO NOTHING`, increments a Prometheus counter keyed
by (level, client, type), forwards the event to a per-category persistor
service and to a Splunk HTTP event collector, and returns a JSON response.

The embedding below models:
  - JSON bodies as an inductive `Json` with Python truthiness (`pyFalsy`);
  - the database table as a list of rows, with the conflict-ignore insert
    `insertLog`;
  - the Prometheus counter as the multiset (list) of increment calls;
  - wall-clock time, ISO-8601 parsing and the possible exceptions of the
    database and of the two outbound HTTP calls as an `Env` oracle record;
  - the side effects of one request as an ordered `Effect` trace.
Event fields are modeled as JSON strings (string-valued or absent), the
shape the service documents for its payloads; `stringValued` scopes the
theorems to that space.
-/

/-- An instant, modeling a Python `datetime` value (`datetime.utcnow()` or
the result of `datetime.fromisoformat`). -/
abbrev Datetime := Int

/-- JSON values, as produced by Flask `request.get_json()`. -/
inductive Json where
  | null : Json
  | bool : Bool → Json
  | num : Int → Json
  | str : String → Json
  | arr : List Json → Json
  | obj : List (String × Json) → Json

/-- Python truthiness of a JSON value: `None`, `False`, `0`, the empty
string, the empty array and the empty object are falsy. -/
def pyFalsy : Json → Bool
  | Json.null => true
  | Json.bool b => !b
  | Json.num n => n == 0
  | Json.str s => s == ""
  | Json.arr xs => xs.isEmpty
  | Json.obj kvs => kvs.isEmpty

/-- Dictionary lookup on the key-value list of a JSON object
(Python `dict.get`). -/
def jLookup (kvs : List (String × Json)) (k : String) : Option Json :=
  match kvs with
  | [] => none
  | (k2, v) :: rest => if k2 == k then some v else jLookup rest k

/-- Fetch a string field of a JSON object; `none` when the key is absent
(fields are modeled as string-valued, see the header comment). -/
def jGetStr (j : Json) (k : String) : Option String :=
  match j with
  | Json.obj kvs =>
    match jLookup kvs k with
    | some (Json.str s) => some s
    | _ => none
  | _ => none

/-- The six fields `collect` reads from the request body, each `none` when
absent. -/
structure LogEvent where
  event_id : Option String
  level : Option String
  message : Option String
  client_name : Option String
  ty : Option String
  timestamp : Option String

/-- Extraction of the event fields from the JSON body
(`event.get("event_id")`, `event.get("level")`, ...; the `type` field is
named `ty` here). -/
def eventFields (j : Json) : LogEvent :=
  { event_id := jGetStr j "event_id"
    level := jGetStr j "level"
    message := jGetStr j "message"
    client_name := jGetStr j "client_name"
    ty := jGetStr j "type"
    timestamp := jGetStr j "timestamp" }

/-- The body is a JSON object all of whose values are strings: the input
space on which the embedding coincides with the Python field handling. -/
def stringValued (j : Json) : Bool :=
  match j with
  | Json.obj kvs => kvs.all (fun p => match p.2 with
      | Json.str _ => true
      | _ => false)
  | _ => false

/-- The severity whitelist `ALLOWED_LEVELS` of app.py line 39. -/
def ALLOWED_LEVELS : List String := ["ERROR", "WARNING", "INFO", "DEBUG"]

/-- Python `str.strip()`: drop leading and trailing whitespace characters. -/
def pyStrip (s : String) : String :=
  String.mk (((s.data.dropWhile Char.isWhitespace).reverse.dropWhile
    Char.isWhitespace).reverse)

/-- Python `str.upper()`: upper-case every character. -/
def pyUpper (s : String) : String := String.mk (s.data.map Char.toUpper)

/-- `normalize_level` of app.py lines 70-74: a missing or empty level maps
to INFO; otherwise the stripped, upper-cased level is kept when
whitelisted and INFO is returned otherwise. -/
def normalize_level (l : Option String) : String :=
  match l with
  | none => "INFO"
  | some s =>
    if s = "" then "INFO"
    else
      let lvl := pyUpper (pyStrip s)
      if lvl ∈ ALLOWED_LEVELS then lvl else "INFO"

/-- Python `x or d` for an optional string `x`: the default is used when
the value is absent or the empty string (both falsy). -/
def pyOrString (v : Option String) (d : String) : String :=
  match v with
  | none => d
  | some s => if s = "" then d else s

/-- Oracles for one request: current time (as a datetime and in whole
milliseconds), the ISO-8601 parser, and whether each fallible call raises
(`dbFails` with message `dbErrMsg` for the database block, `persistorFails`
for the persistor POST, `splunkFails` and `splunkStatus` for the Splunk
POST). `parseIso s = none` models `datetime.fromisoformat` raising. -/
structure Env where
  nowDt : Datetime
  nowMs : Nat
  parseIso : String → Option Datetime
  dbFails : Bool
  dbErrMsg : String
  persistorFails : Bool
  splunkFails : Bool
  splunkStatus : Nat

/-- app.py lines 123-128: parse the timestamp field when present and
non-empty, falling back to the current time when it is absent, empty, or
the parse raises. -/
def computeTimestamp (env : Env) (ts : Option String) : Datetime :=
  match ts with
  | none => env.nowDt
  | some s => if s = "" then env.nowDt else (env.parseIso s).getD env.nowDt

/-- One row of the `logs` table (init_db, app.py lines 52-67), without the
serial primary key. -/
structure Row where
  event_id : String
  level : String
  message : String
  client_name : String
  ty : String
  timestamp : Datetime

/-- The normalized row `collect` builds from the request (app.py lines
118-128): generated event id when absent or falsy, normalized level,
defaulted message, client and type, parsed-or-now timestamp. -/
def buildRow (env : Env) (raw : Json) : Row :=
  { event_id := pyOrString (eventFields raw).event_id (toString env.nowMs)
    level := normalize_level (eventFields raw).level
    message := ((eventFields raw).message).getD ""
    client_name := ((eventFields raw).client_name).getD "unknown"
    ty := ((eventFields raw).ty).getD "application"
    timestamp := computeTimestamp env (eventFields raw).timestamp }

/-- `PERSISTORS.get(log_type)` for the four-key dictionary of app.py lines
24-29, with the default URLs. -/
def persistorsGet (t : String) : Option String :=
  if t = "auth" then some "http://persistor-auth:6000"
  else if t = "payment" then some "http://persistor-payment:6000"
  else if t = "system" then some "http://persistor-system:6000"
  else if t = "application" then some "http://persistor-application:6000"
  else none

/-- The `INSERT ... ON CONFLICT (event_id) DO NOTHING` of app.py lines
132-138 over the list-of-rows table: a row whose event_id is already
present changes nothing, otherwise the row is appended. -/
def insertLog (rows : List Row) (r : Row) : List Row :=
  if rows.any (fun q => q.event_id == r.event_id) then rows else rows ++ [r]

/-- A Prometheus label triple (level, client, type). -/
abbrev MetricKey := String × String × String

/-- The `logs_total` counter, modeled as the multiset (list) of all
`inc()` calls made so far. -/
abbrev LogCounter := List MetricKey

/-- `log_counter.labels(level, client, type).inc()` (app.py lines 141-142). -/
def incCounter (c : LogCounter) (k : MetricKey) : LogCounter := k :: c

/-- The value of the counter at one label triple. -/
def counterValue (c : LogCounter) (k : MetricKey) : Nat := c.count k

/-- The total of the counter across all label triples. -/
def counterTotal (c : LogCounter) : Nat := c.length

/-- The pull-based text exposition of the counter (`generate_latest`),
modeled as the list of (label triple, total) samples. -/
def exportCounter (c : LogCounter) : List (MetricKey × Nat) :=
  c.dedup.map (fun k => (k, counterValue c k))

/-- The mutable state of the service: the `logs` table and the counter. -/
structure SState where
  rows : List Row
  counter : LogCounter

/-- One side effect of a request, in the order performed: the database
insert, the counter increment, the POST of the raw body to a persistor
(recording whether it raised), and the POST to the Splunk HTTP event
collector (recording whether it raised and the response status). -/
inductive Effect where
  | dbInsert : Row → Effect
  | metricInc : String → String → String → Effect
  | persistorPost : String → Json → Bool → Effect
  | splunkPost : Row → Bool → Nat → Effect

/-- Response body of a successful ingest: status ok. -/
def okBody : Json := Json.obj [("status", Json.str "ok")]

/-- Response body of a rejected ingest: error, invalid payload. -/
def invalidBody : Json := Json.obj [("error", Json.str "invalid payload")]

/-- Response body of a failed ingest: error with the exception text. -/
def errBody (msg : String) : Json := Json.obj [("error", Json.str msg)]

/-- The body of `collect` after the payload gate (app.py lines 118-165):
build the row; if the database block raises, return 500 with the error
text and perform nothing else; otherwise insert, increment the counter,
POST to the persistor of the event type when one exists, POST to Splunk,
and return 200 ok. -/
def processEvent (env : Env) (st : SState) (raw : Json) :
    (Nat × Json) × SState × List Effect :=
  let row := buildRow env raw
  if env.dbFails then
    ((500, errBody env.dbErrMsg), st, [])
  else
    ((200, okBody),
     { rows := insertLog st.rows row
       counter := incCounter st.counter (row.level, row.client_name, row.ty) },
     [Effect.dbInsert row,
      Effect.metricInc row.level row.client_name row.ty]
     ++ (match persistorsGet row.ty with
         | some url => [Effect.persistorPost url raw env.persistorFails]
         | none => [])
     ++ [Effect.splunkPost row env.splunkFails env.splunkStatus])

/-- The `/collect` handler (app.py lines 111-165). The body is `none` when
`request.get_json()` yields no JSON value; a missing or falsy body is
rejected with 400 and no side effects. Returns (status, body), the new
state, and the ordered effect trace. -/
def collect (env : Env) (st : SState) (body : Option Json) :
    (Nat × Json) × SState × List Effect :=
  match body with
  | none => ((400, invalidBody), st, [])
  | some raw =>
    if pyFalsy raw then ((400, invalidBody), st, [])
    else processEvent env st raw

/-- The `/metrics` handler (app.py lines 194-196): the counter exposition
and status 200. -/
def metricsRoute (st : SState) : List (MetricKey × Nat) × Nat :=
  (exportCounter st.counter, 200)

/-- Run a sequence of requests through `collect`, returning the final
state and the number of accepted (status 200) requests. -/
def runSeq (st : SState) (reqs : List (Env × Option Json)) : SState × Nat :=
  match reqs with
  | [] => (st, 0)
  | (env, b) :: rest =>
    let r := collect env st b
    let rec2 := runSeq r.2.1 rest
    (rec2.1, (if r.1.1 = 200 then 1 else 0) + rec2.2)

/-- A concrete environment for witness evaluation: a fixed clock, a parser
that succeeds only on one literal, and no failures. -/
def env0 : Env :=
  { nowDt := 1700000000
    nowMs := 1700000000123
    parseIso := fun s => if s = "2024-01-02T03:04:05" then some 1704164645 else none
    dbFails := false
    dbErrMsg := "db down"
    persistorFails := false
    splunkFails := false
    splunkStatus := 200 }

/-- env0 with a failing database block. -/
def env0db : Env :=
  { env0 with dbFails := true }

/-- The empty service state. -/
def st0 : SState := { rows := [], counter := [] }

/-- A concrete request body with every field present. -/
def rawA : Json :=
  Json.obj [("event_id", Json.str "e-1"), ("level", Json.str " error "),
            ("message", Json.str "boom"), ("client_name", Json.str "web"),
            ("type", Json.str "auth"), ("timestamp", Json.str "2024-01-02T03:04:05")]

/-- A concrete request body with no event_id and an unknown type. -/
def rawB : Json :=
  Json.obj [("level", Json.str "debug"), ("message", Json.str "x"),
            ("client_name", Json.str "cli"), ("type", Json.str "batch"),
            ("timestamp", Json.str "not-a-date")]

/-- A state already holding the row rawA normalizes to. -/
def st1 : SState :=
  { rows := [{ event_id := "e-1", level := "ERROR", message := "boom",
               client_name := "web", ty := "auth", timestamp := 1704164645 }]
    counter := [("ERROR", "web", "auth")] }

/-- Number of persistor POST attempts in an effect trace. -/
def countPersistor : List Effect → Nat
  | [] => 0
  | Effect.persistorPost _ _ _ :: es => countPersistor es + 1
  | _ :: es => countPersistor es

/-- Number of Splunk POST attempts in an effect trace. -/
def countSplunk : List Effect → Nat
  | [] => 0
  | Effect.splunkPost _ _ _ :: es => countSplunk es + 1
  | _ :: es => countSplunk es

/-- A concrete request body whose event_id is present but empty. -/
def rawC : Json :=
  Json.obj [("event_id", Json.str ""), ("message", Json.str "y")]

/-- A concrete request sequence: rawA twice (the second a duplicate
event_id) and one missing body. -/
def reqs0 : List (Env × Option Json) :=
  [(env0, some rawA), (env0, some rawA), (env0, none)]

/-- env0 with both outbound forwards failing and a non-2xx Splunk status. -/
def env0fail : Env :=
  { env0 with persistorFails := true, splunkFails := true, splunkStatus := 503 }

theorem collect_success (env : Env) (st : SState) (raw : Json)
    (hb : pyFalsy raw = false) (hdb : env.dbFails = false) :
    collect env st (some raw) =
      ((200, okBody),
       { rows := insertLog st.rows (buildRow env raw)
         counter := incCounter st.counter
           ((buildRow env raw).level, (buildRow env raw).client_name,
            (buildRow env raw).ty) },
       [Effect.dbInsert (buildRow env raw),
        Effect.metricInc (buildRow env raw).level (buildRow env raw).client_name
          (buildRow env raw).ty]
       ++ (match persistorsGet (buildRow env raw).ty with
           | some url => [Effect.persistorPost url raw env.persistorFails]
           | none => [])
       ++ [Effect.splunkPost (buildRow env raw) env.splunkFails env.splunkStatus]) := by
  simp [collect, processEvent, hb, hdb]

theorem insertLog_of_mem (rows : List Row) (r : Row)
    (h : ∃ q ∈ rows, q.event_id = r.event_id) : insertLog rows r = rows := by
  obtain ⟨q, hq, he⟩ := h
  unfold insertLog
  rw [if_pos]
  exact List.any_eq_true.mpr ⟨q, hq, beq_iff_eq.mpr he⟩

theorem insertLog_of_not_mem (rows : List Row) (r : Row)
    (h : ∀ q ∈ rows, q.event_id ≠ r.event_id) : insertLog rows r = rows ++ [r] := by
  unfold insertLog
  rw [if_neg]
  intro hc
  obtain ⟨q, hq, he⟩ := List.any_eq_true.mp hc
  exact h q hq (beq_iff_eq.mp he)

theorem insertLog_mem (rows : List Row) (r : Row) :
    ∃ q ∈ insertLog rows r, q.event_id = r.event_id := by
  unfold insertLog
  by_cases hc : rows.any (fun q => q.event_id == r.event_id) = true
  · rw [if_pos hc]
    obtain ⟨q, hq, he⟩ := List.any_eq_true.mp hc
    exact ⟨q, hq, beq_iff_eq.mp he⟩
  · rw [if_neg hc]
    exact ⟨r, List.mem_append_right _ (List.mem_singleton.mpr rfl), rfl⟩

/-- C1: inserting an event through `collect` is idempotent in the event
identifier: when a row with the same event_id is already stored the table
is unchanged (no field of the existing row changes and no row is added),
and a fresh event_id appends exactly the one new row. -/
theorem collect_insert_idempotent (env : Env) (st : SState) (raw : Json)
    (hb : pyFalsy raw = false) (hdb : env.dbFails = false)
    (hsv : stringValued raw = true) :
    ((∃ q ∈ st.rows, q.event_id = (buildRow env raw).event_id) →
      (collect env st (some raw)).2.1.rows = st.rows) ∧
    ((∀ q ∈ st.rows, q.event_id ≠ (buildRow env raw).event_id) →
      (collect env st (some raw)).2.1.rows = st.rows ++ [buildRow env raw]) := by
  rw [collect_success env st raw hb hdb]
  exact ⟨fun h => insertLog_of_mem st.rows (buildRow env raw) h,
         fun h => insertLog_of_not_mem st.rows (buildRow env raw) h⟩

/-- Witness for C1: with the one-row state st1 the duplicate insert of
rawA leaves the table unchanged, and from the empty state the same insert
appends exactly one row. -/
theorem collect_insert_idempotent_witness :
    (collect env0 st1 (some rawA)).2.1.rows = st1.rows ∧
    (collect env0 st0 (some rawA)).2.1.rows = st0.rows ++ [buildRow env0 rawA] := by
  constructor
  · exact (collect_insert_idempotent env0 st1 rawA rfl rfl rfl).1
      ⟨{ event_id := "e-1", level := "ERROR", message := "boom",
         client_name := "web", ty := "auth", timestamp := 1704164645 },
       by simp [st1], by rfl⟩
  · exact (collect_insert_idempotent env0 st0 rawA rfl rfl rfl).2
      (by intro q hq; simp [st0] at hq)

/-- C2: `normalize_level` always lands in the whitelist ERROR, WARNING,
INFO, DEBUG; a missing input, and any input whose trimmed upper-cased form
is not in the whitelist (the empty string included), yields INFO. -/
theorem normalize_level_whitelist (l : Option String) :
    normalize_level l ∈ ALLOWED_LEVELS ∧
    (l = none → normalize_level l = "INFO") ∧
    (l = some "" → normalize_level l = "INFO") ∧
    (∀ s, l = some s → pyUpper (pyStrip s) ∉ ALLOWED_LEVELS →
      normalize_level l = "INFO") := by
  refine ⟨?_, ?_, ?_, ?_⟩
  · match l with
    | none => decide
    | some s =>
      simp only [normalize_level]
      by_cases h0 : s = ""
      · rw [if_pos h0]; decide
      · rw [if_neg h0]
        by_cases h1 : pyUpper (pyStrip s) ∈ ALLOWED_LEVELS
        · rwa [if_pos h1]
        · rw [if_neg h1]; decide
  · intro h; rw [h]; rfl
  · intro h; rw [h]; rfl
  · intro s hs h1
    rw [hs]
    simp only [normalize_level]
    by_cases h0 : s = ""
    · rw [if_pos h0]
    · rw [if_neg h0, if_neg h1]

/-- Witness for C2: a recognized level is stripped and upper-cased into
the whitelist, and an unrecognized one falls back to INFO. -/
theorem normalize_level_whitelist_witness :
    normalize_level (some " error ") ∈ ALLOWED_LEVELS ∧
    normalize_level (some "fatal") = "INFO" ∧
    normalize_level none = "INFO" :=
  ⟨(normalize_level_whitelist (some " error ")).1,
   (normalize_level_whitelist (some "fatal")).2.2.2 "fatal" rfl (by decide),
   (normalize_level_whitelist none).2.1 rfl⟩

/-- C3: the stored timestamp is the ISO-8601 parse of the request's
timestamp field when that field is present, non-empty and parseable, and
the current time when the field is absent, empty, or the parse raises;
the request is accepted (status 200) in every case. -/
theorem collect_timestamp_fallback (env : Env) (st : SState) (raw : Json)
    (hb : pyFalsy raw = false) (hdb : env.dbFails = false)
    (hsv : stringValued raw = true) :
    (collect env st (some raw)).1.1 = 200 ∧
    (collect env st (some raw)).2.1.rows = insertLog st.rows (buildRow env raw) ∧
    (∀ s d, (eventFields raw).timestamp = some s → s ≠ "" →
      env.parseIso s = some d → (buildRow env raw).timestamp = d) ∧
    (∀ s, (eventFields raw).timestamp = some s → s ≠ "" →
      env.parseIso s = none → (buildRow env raw).timestamp = env.nowDt) ∧
    ((eventFields raw).timestamp = none → (buildRow env raw).timestamp = env.nowDt) ∧
    ((eventFields raw).timestamp = some "" →
      (buildRow env raw).timestamp = env.nowDt) := by
  rw [collect_success env st raw hb hdb]
  refine ⟨rfl, rfl, ?_, ?_, ?_, ?_⟩
  · intro s d h1 h2 h3
    simp [buildRow, computeTimestamp, h1, h2, h3]
  · intro s h1 h2 h3
    simp [buildRow, computeTimestamp, h1, h2, h3]
  · intro h1
    simp [buildRow, computeTimestamp, h1]
  · intro h1
    simp [buildRow, computeTimestamp, h1]

/-- Witness for C3: rawA's timestamp parses and is stored as parsed;
rawB's timestamp does not parse and the current time is stored, with the
request still accepted. -/
theorem collect_timestamp_fallback_witness :
    (collect env0 st0 (some rawB)).1.1 = 200 ∧
    (buildRow env0 rawA).timestamp = 1704164645 ∧
    (buildRow env0 rawB).timestamp = env0.nowDt :=
  ⟨(collect_timestamp_fallback env0 st0 rawB rfl rfl rfl).1,
   (collect_timestamp_fallback env0 st0 rawA rfl rfl rfl).2.2.1
     "2024-01-02T03:04:05" 1704164645 rfl (by decide) rfl,
   (collect_timestamp_fallback env0 st0 rawB rfl rfl rfl).2.2.2.1
     "not-a-date" rfl (by decide) rfl⟩

/-- C4: an accepted request performs its side effects exactly once each
and in order: database insert, then counter increment, then the persistor
POST exactly when the event type is one of auth, payment, system,
application, then the Splunk POST; the trace holds nothing else. -/
theorem collect_effect_order (env : Env) (st : SState) (raw : Json)
    (hb : pyFalsy raw = false) (hdb : env.dbFails = false)
    (hsv : stringValued raw = true) :
    (collect env st (some raw)).2.2 =
      [Effect.dbInsert (buildRow env raw),
       Effect.metricInc (buildRow env raw).level (buildRow env raw).client_name
         (buildRow env raw).ty]
      ++ (match persistorsGet (buildRow env raw).ty with
          | some url => [Effect.persistorPost url raw env.persistorFails]
          | none => [])
      ++ [Effect.splunkPost (buildRow env raw) env.splunkFails env.splunkStatus] ∧
    (∀ t, (persistorsGet t).isSome = true ↔
      t ∈ ["auth", "payment", "system", "application"]) := by
  constructor
  · rw [collect_success env st raw hb hdb]
  · intro t
    unfold persistorsGet
    by_cases h1 : t = "auth"
    · simp [h1]
    · rw [if_neg h1]
      by_cases h2 : t = "payment"
      · simp [h2]
      · rw [if_neg h2]
        by_cases h3 : t = "system"
        · simp [h3]
        · rw [if_neg h3]
          by_cases h4 : t = "application"
          · simp [h4]
          · rw [if_neg h4]
            simp [h1, h2, h3, h4]

/-- Witness for C4: the trace of rawA (type auth) is exactly the four
effects in order, and the unknown type batch has no persistor. -/
theorem collect_effect_order_witness :
    (collect env0 st0 (some rawA)).2.2 =
      [Effect.dbInsert (buildRow env0 rawA),
       Effect.metricInc "ERROR" "web" "auth",
       Effect.persistorPost "http://persistor-auth:6000" rawA false,
       Effect.splunkPost (buildRow env0 rawA) false 200] ∧
    (persistorsGet "batch").isSome = false := by
  have h := collect_effect_order env0 st0 rawA rfl rfl rfl
  constructor
  · exact h.1
  · have h3 : ¬ ((persistorsGet "batch").isSome = true) := fun hh =>
      (by decide :
        ¬ ("batch" ∈ (["auth", "payment", "system", "application"] : List String)))
        ((h.2 "batch").mp hh)
    simpa using h3

theorem countPersistor_trace (row : Row) (raw : Json) (b1 b2 : Bool) (ssn : Nat) :
    countPersistor
      ([Effect.dbInsert row,
        Effect.metricInc row.level row.client_name row.ty]
       ++ (match persistorsGet row.ty with
           | some url => [Effect.persistorPost url raw b1]
           | none => [])
       ++ [Effect.splunkPost row b2 ssn]) =
      (if (persistorsGet row.ty).isSome then 1 else 0) := by
  rcases h : persistorsGet row.ty with _ | url <;> simp [h, countPersistor]

theorem countSplunk_trace (row : Row) (raw : Json) (b1 b2 : Bool) (ssn : Nat) :
    countSplunk
      ([Effect.dbInsert row,
        Effect.metricInc row.level row.client_name row.ty]
       ++ (match persistorsGet row.ty with
           | some url => [Effect.persistorPost url raw b1]
           | none => [])
       ++ [Effect.splunkPost row b2 ssn]) = 1 := by
  rcases h : persistorsGet row.ty with _ | url <;> simp [h, countSplunk]

/-- C5: outbound-forward failures are swallowed: whatever the outcome of
the persistor POST and of the Splunk POST (exception or any response
status), the response is 200 with body status ok, the stored state is the
same, and each forward is attempted exactly once. -/
theorem buildRow_congr (env env2 : Env) (raw : Json)
    (h1 : env2.nowDt = env.nowDt) (h2 : env2.nowMs = env.nowMs)
    (h3 : env2.parseIso = env.parseIso) :
    buildRow env2 raw = buildRow env raw := by
  rcases hts : (eventFields raw).timestamp with _ | s <;>
    simp [buildRow, computeTimestamp, hts, h1, h2, h3]

theorem collect_forward_failures_swallowed (env env2 : Env) (st : SState)
    (raw : Json)
    (hb : pyFalsy raw = false) (hdb : env.dbFails = false)
    (hsv : stringValued raw = true)
    (h1 : env2.nowDt = env.nowDt) (h2 : env2.nowMs = env.nowMs)
    (h3 : env2.parseIso = env.parseIso) (h4 : env2.dbFails = false) :
    (collect env2 st (some raw)).1 = (200, okBody) ∧
    (collect env2 st (some raw)).2.1 = (collect env st (some raw)).2.1 ∧
    countPersistor (collect env2 st (some raw)).2.2 =
      (if (persistorsGet (buildRow env raw).ty).isSome then 1 else 0) ∧
    countSplunk (collect env2 st (some raw)).2.2 = 1 := by
  have hbr : buildRow env2 raw = buildRow env raw :=
    buildRow_congr env env2 raw h1 h2 h3
  rw [collect_success env2 st raw hb h4, collect_success env st raw hb hdb, hbr]
  exact ⟨rfl, rfl,
    countPersistor_trace (buildRow env raw) raw env2.persistorFails
      env2.splunkFails env2.splunkStatus,
    countSplunk_trace (buildRow env raw) raw env2.persistorFails
      env2.splunkFails env2.splunkStatus⟩

/-- Witness for C5: with both forwards failing and a non-2xx Splunk
status, rawA is still accepted with the same stored state and one attempt
of each forward. -/
theorem collect_forward_failures_swallowed_witness :
    (collect env0fail st0 (some rawA)).1 = (200, okBody) ∧
    (collect env0fail st0 (some rawA)).2.1 = (collect env0 st0 (some rawA)).2.1 ∧
    countPersistor (collect env0fail st0 (some rawA)).2.2 = 1 ∧
    countSplunk (collect env0fail st0 (some rawA)).2.2 = 1 := by
  have h := collect_forward_failures_swallowed env0 env0fail st0 rawA
    rfl rfl rfl rfl rfl rfl rfl
  exact ⟨h.1, h.2.1, h.2.2.1, h.2.2.2⟩

/-- C6: an accepted request increments the counter by exactly one at the
key (level, client, type) of the event, leaves every other key unchanged,
and the metrics endpoint exposes the key's new total with status 200. -/
theorem collect_metric_increment (env : Env) (st : SState) (raw : Json)
    (hb : pyFalsy raw = false) (hdb : env.dbFails = false)
    (hsv : stringValued raw = true) :
    counterValue (collect env st (some raw)).2.1.counter
        ((buildRow env raw).level, (buildRow env raw).client_name,
         (buildRow env raw).ty)
      = counterValue st.counter
          ((buildRow env raw).level, (buildRow env raw).client_name,
           (buildRow env raw).ty) + 1 ∧
    (∀ k : MetricKey,
      k ≠ ((buildRow env raw).level, (buildRow env raw).client_name,
           (buildRow env raw).ty) →
      counterValue (collect env st (some raw)).2.1.counter k
        = counterValue st.counter k) ∧
    (((buildRow env raw).level, (buildRow env raw).client_name,
       (buildRow env raw).ty),
      counterValue (collect env st (some raw)).2.1.counter
        ((buildRow env raw).level, (buildRow env raw).client_name,
         (buildRow env raw).ty))
      ∈ (metricsRoute (collect env st (some raw)).2.1).1 ∧
    (metricsRoute (collect env st (some raw)).2.1).2 = 200 := by
  rw [collect_success env st raw hb hdb]
  refine ⟨?_, ?_, ?_, rfl⟩
  · simp [counterValue, incCounter]
  · intro k hk
    simp only [counterValue, incCounter]
    exact List.count_cons_of_ne hk _
  · apply List.mem_map.mpr
    refine ⟨_, ?_, rfl⟩
    exact List.mem_dedup.mpr (List.mem_cons_self _ _)

/-- Witness for C6: ingesting rawA from the empty state gives total 1 at
(ERROR, web, auth), leaves (INFO, x, y) at 0, and the metrics exposition
holds the new sample. -/
theorem collect_metric_increment_witness :
    counterValue (collect env0 st0 (some rawA)).2.1.counter ("ERROR", "web", "auth") = 1 ∧
    counterValue (collect env0 st0 (some rawA)).2.1.counter ("INFO", "x", "y") = 0 ∧
    (("ERROR", "web", "auth"), 1)
      ∈ (metricsRoute (collect env0 st0 (some rawA)).2.1).1 := by
  have h := collect_metric_increment env0 st0 rawA rfl rfl rfl
  exact ⟨h.1, h.2.1 ("INFO", "x", "y") (by decide), h.2.2.1⟩

/-- C7: when the database block raises, collect returns 500 with the
exception text, the state is unchanged, and no further side effect (no
counter increment, no forward) is performed. -/
theorem collect_db_failure_500 (env : Env) (st : SState) (raw : Json)
    (hb : pyFalsy raw = false) (hdb : env.dbFails = true) :
    (collect env st (some raw)).1.1 = 500 ∧
    (collect env st (some raw)).1.2 = errBody env.dbErrMsg ∧
    (collect env st (some raw)).2.1 = st ∧
    (collect env st (some raw)).2.2 = [] := by
  simp [collect, processEvent, hb, hdb]

/-- Witness for C7: with a failing database, rawA yields 500 and nothing
happens. -/
theorem collect_db_failure_500_witness :
    (collect env0db st0 (some rawA)).1.1 = 500 ∧
    (collect env0db st0 (some rawA)).2.1 = st0 ∧
    (collect env0db st0 (some rawA)).2.2 = [] := by
  have h := collect_db_failure_500 env0db st0 rawA rfl rfl
  exact ⟨h.1, h.2.2.1, h.2.2.2⟩

/-- C8: a missing body or any body parsing to a falsy JSON value (null,
false, 0, the empty string, the empty array, or the empty object, the
last a syntactically valid JSON log event) is rejected with 400 and body
error invalid payload, with no side effects and no state change. -/
theorem collect_falsy_payload_rejected (env : Env) (st : SState) :
    collect env st none = ((400, invalidBody), st, []) ∧
    (∀ j, pyFalsy j = true → collect env st (some j) = ((400, invalidBody), st, [])) ∧
    pyFalsy Json.null = true ∧ pyFalsy (Json.bool false) = true ∧
    pyFalsy (Json.num 0) = true ∧ pyFalsy (Json.str "") = true ∧
    pyFalsy (Json.arr []) = true ∧ pyFalsy (Json.obj []) = true := by
  refine ⟨rfl, ?_, rfl, rfl, rfl, rfl, rfl, rfl⟩
  intro j hj
  simp [collect, hj]

/-- Witness for C8: the empty JSON object is rejected with 400 and no
effects. -/
theorem collect_falsy_payload_rejected_witness :
    collect env0 st0 (some (Json.obj [])) = ((400, invalidBody), st0, []) :=
  (collect_falsy_payload_rejected env0 st0).2.1 (Json.obj []) rfl

/-- C9: when the event_id field is absent or falsy (the empty string
included) the stored event_id is the current time in whole milliseconds
rendered as a decimal string; two such requests sharing the same
millisecond get the same event_id and the second is silently dropped by
the conflict-ignore insert (same table, still accepted with 200). -/
theorem collect_generated_event_id_dedup
    (env1 env2 : Env) (st : SState) (raw1 raw2 : Json)
    (hb1 : pyFalsy raw1 = false) (hb2 : pyFalsy raw2 = false)
    (hdb1 : env1.dbFails = false) (hdb2 : env2.dbFails = false)
    (hsv1 : stringValued raw1 = true) (hsv2 : stringValued raw2 = true)
    (hid1 : (eventFields raw1).event_id = none ∨ (eventFields raw1).event_id = some "")
    (hid2 : (eventFields raw2).event_id = none ∨ (eventFields raw2).event_id = some "")
    (hms : env1.nowMs = env2.nowMs) :
    (buildRow env1 raw1).event_id = toString env1.nowMs ∧
    (buildRow env2 raw2).event_id = (buildRow env1 raw1).event_id ∧
    (collect env2 (collect env1 st (some raw1)).2.1 (some raw2)).2.1.rows
      = (collect env1 st (some raw1)).2.1.rows ∧
    (collect env2 (collect env1 st (some raw1)).2.1 (some raw2)).1.1 = 200 := by
  have e1 : (buildRow env1 raw1).event_id = toString env1.nowMs := by
    rcases hid1 with h | h <;> simp [buildRow, pyOrString, h]
  have e2 : (buildRow env2 raw2).event_id = toString env2.nowMs := by
    rcases hid2 with h | h <;> simp [buildRow, pyOrString, h]
  have e12 : (buildRow env2 raw2).event_id = (buildRow env1 raw1).event_id := by
    rw [e1, e2, hms]
  refine ⟨e1, e12, ?_, ?_⟩
  · rw [collect_success env1 st raw1 hb1 hdb1,
        collect_success env2 _ raw2 hb2 hdb2]
    obtain ⟨q, hq, he⟩ := insertLog_mem st.rows (buildRow env1 raw1)
    exact insertLog_of_mem _ _ ⟨q, hq, by rw [he, e12]⟩
  · rw [collect_success env2 _ raw2 hb2 hdb2]

/-- Witness for C9: rawB (no event_id) gets the generated millisecond id,
and rawC (empty event_id) sent in the same millisecond is dropped. -/
theorem collect_generated_event_id_dedup_witness :
    (buildRow env0 rawB).event_id = "1700000000123" ∧
    (collect env0 (collect env0 st0 (some rawB)).2.1 (some rawC)).2.1.rows
      = (collect env0 st0 (some rawB)).2.1.rows ∧
    (collect env0 (collect env0 st0 (some rawB)).2.1 (some rawC)).1.1 = 200 := by
  have h := collect_generated_event_id_dedup env0 env0 st0 rawB rawC
    rfl rfl rfl rfl rfl rfl (Or.inl rfl) (Or.inr rfl) rfl
  exact ⟨h.1.trans (by decide), h.2.2.1, h.2.2.2⟩

theorem collect_step_counts (env : Env) (st : SState) (b : Option Json) :
    counterTotal (collect env st b).2.1.counter
      = counterTotal st.counter + (if (collect env st b).1.1 = 200 then 1 else 0) ∧
    (collect env st b).2.1.rows.length
      ≤ st.rows.length + (if (collect env st b).1.1 = 200 then 1 else 0) := by
  match b with
  | none => constructor <;> simp [collect]
  | some raw =>
    by_cases hf : pyFalsy raw = true
    · constructor <;> simp [collect, hf]
    · have hf2 : pyFalsy raw = false := by simpa using hf
      by_cases hdb : env.dbFails = true
      · constructor <;> simp [collect, processEvent, hf2, hdb]
      · have hdb2 : env.dbFails = false := by simpa using hdb
        rw [collect_success env st raw hf2 hdb2]
        constructor
        · simp [counterTotal, incCounter]
        · simp only [if_pos rfl]
          unfold insertLog
          by_cases hc : st.rows.any
              (fun q => q.event_id == (buildRow env raw).event_id) = true
          · rw [if_pos hc]
            exact Nat.le_succ _
          · rw [if_neg hc]
            simp

/-- C10: over any request sequence the counter total grows by exactly the
number of accepted (status 200) requests; when the table starts no larger
than the counter total it stays so, and an accepted duplicate event_id
still increments the counter while leaving the table unchanged, so the
total counts requests, not stored rows. -/
theorem counter_total_invariant (reqs : List (Env × Option Json)) (st : SState) :
    counterTotal (runSeq st reqs).1.counter
      = counterTotal st.counter + (runSeq st reqs).2 ∧
    (st.rows.length ≤ counterTotal st.counter →
      (runSeq st reqs).1.rows.length ≤ counterTotal (runSeq st reqs).1.counter) ∧
    (∀ env raw, pyFalsy raw = false → env.dbFails = false →
      (∃ q ∈ st.rows, q.event_id = (buildRow env raw).event_id) →
      (collect env st (some raw)).2.1.rows = st.rows ∧
      counterTotal (collect env st (some raw)).2.1.counter
        = counterTotal st.counter + 1) := by
  have main : ∀ s : SState,
      counterTotal (runSeq s reqs).1.counter
        = counterTotal s.counter + (runSeq s reqs).2 ∧
      (runSeq s reqs).1.rows.length ≤ s.rows.length + (runSeq s reqs).2 := by
    induction reqs with
    | nil => intro s; simp [runSeq]
    | cons hd tl ih =>
      intro s
      obtain ⟨env, b⟩ := hd
      obtain ⟨h1, h2⟩ := collect_step_counts env s b
      obtain ⟨ih1, ih2⟩ := ih (collect env s b).2.1
      simp only [runSeq]
      constructor
      · omega
      · omega
  refine ⟨(main st).1, ?_, ?_⟩
  · intro hinv
    have h1 := (main st).1
    have h2 := (main st).2
    omega
  · intro env raw hb hdb hmem
    rw [collect_success env st raw hb hdb]
    exact ⟨insertLog_of_mem st.rows (buildRow env raw) hmem,
      by simp [counterTotal, incCounter]⟩

/-- Witness for C10: the sequence reqs0 run from the one-row state st1 has
two accepted requests, the final counter total is the initial one plus
two, the final table is no larger than the counter total, and the
duplicate rawA from st1 leaves the table unchanged while adding one to
the counter total. -/
theorem counter_total_invariant_witness :
    counterTotal (runSeq st1 reqs0).1.counter
      = counterTotal st1.counter + (runSeq st1 reqs0).2 ∧
    (runSeq st1 reqs0).1.rows.length ≤ counterTotal (runSeq st1 reqs0).1.counter ∧
    (collect env0 st1 (some rawA)).2.1.rows = st1.rows ∧
    counterTotal (collect env0 st1 (some rawA)).2.1.counter
      = counterTotal st1.counter + 1 := by
  have h := counter_total_invariant reqs0 st1
  have h3 := h.2.2 env0 rawA rfl rfl
    ⟨{ event_id := "e-1", level := "ERROR", message := "boom",
       client_name := "web", ty := "auth", timestamp := 1704164645 },
     by simp [st1], by rfl⟩
  exact ⟨h.1, h.2.1 (Nat.le_refl 1), h3.1, h3.2⟩
